import Mathlib

/-!
Verification of the running-route recommendation front end
(src/frontend/src/App.jsx; src/unnamed/part_000 is an earlier variant of the
same file).  The JavaScript is shallowly embedded: React state becomes explicit
record state, event handlers become state-transition functions, JSX output
becomes render functions into inductive view types, and the asynchronous fetch
is modelled by an explicit outcome type fed to the resolution step.  Numeric
fields (coordinates, distances) are modelled as rationals; every arithmetic
operation the code performs on them (doubling a distance) is exact in binary64
for the values at issue, so the rational model agrees with the JS semantics.
-/

/- ## String utilities

Mirrors JavaScript `String.prototype.includes` (substring containment), used by
App.jsx line 193 (`errorText.includes('OPEN_MAP_AND_LOCAL')`) and by the
querySelector scan in useKakaoLoader line 27
(`script[src*="dapi.kakao.com"]`, i.e. attribute-contains matching). -/

/-- Does `pat` occur at the head of `l`? -/
def listStartsWith : List Char → List Char → Bool
  | _, [] => true
  | [], _ :: _ => false
  | a :: l, b :: pat => (a == b) && listStartsWith l pat

/-- Does `pat` occur anywhere in `l`?  (JS `includes`.) -/
def listContains : List Char → List Char → Bool
  | [], pat => listStartsWith [] pat
  | a :: rest, pat => listStartsWith (a :: rest) pat || listContains rest pat

/-- JS `s.includes(pat)`. -/
def strIncludes (s pat : String) : Bool :=
  listContains s.toList pat.toList

theorem listStartsWith_append (l b pat : List Char)
    (h : listStartsWith l pat = true) : listStartsWith (l ++ b) pat = true := by
  induction pat generalizing l with
  | nil => cases h2 : l ++ b with
    | nil => rfl
    | cons x xs => rfl
  | cons p ps ih =>
    cases l with
    | nil => simp [listStartsWith] at h
    | cons a as =>
      simp only [listStartsWith, Bool.and_eq_true] at h
      simp only [List.cons_append, listStartsWith, Bool.and_eq_true]
      exact ⟨h.1, ih as h.2⟩

theorem listContains_append_right (a b pat : List Char)
    (h : listContains a pat = true) : listContains (a ++ b) pat = true := by
  induction a with
  | nil =>
    cases pat with
    | nil => cases b with
      | nil => rfl
      | cons x xs => simp [listContains, listStartsWith]
    | cons p ps => simp [listContains, listStartsWith] at h
  | cons x xs ih =>
    simp only [listContains, Bool.or_eq_true] at h
    rcases h with h | h
    · simp only [List.cons_append, listContains, Bool.or_eq_true]
      exact Or.inl (listStartsWith_append _ _ _ h)
    · simp only [List.cons_append, listContains, Bool.or_eq_true]
      exact Or.inr (ih h)

theorem listContains_append_left (a b pat : List Char)
    (h : listContains b pat = true) : listContains (a ++ b) pat = true := by
  induction a with
  | nil => exact h
  | cons x xs ih =>
    simp only [List.cons_append, listContains, Bool.or_eq_true]
    exact Or.inr ih

/- ## Data model

From the backend HTTP contract consumed in App.jsx lines 183-190 and rendered
in lines 225-278.  JSON numbers are modelled as rationals. -/

/-- A recommended place (`selected_place` object of the success response). -/
structure Place where
  place_name : String
  distance_km : ℚ
  address_name : Option String
  phone : Option String
  deriving DecidableEq

/-- Parsed success-response body (`data` in App.jsx line 189). -/
structure RecommendData where
  selected_place : Option Place
  candidates_considered : ℤ
  route_url : String
  deriving DecidableEq

/-- Outcome of the fetch inside `submit` (App.jsx lines 183-197):
a 2xx response with parsed JSON body, a non-2xx response whose body text is
thrown as `new Error(body)` (line 188), or a network-level rejection whose
thrown value stringifies to `desc`. -/
inductive HttpOutcome where
  | success (data : RecommendData)
  | httpError (body : String)
  | networkError (desc : String)
  deriving DecidableEq

/-- React state of the `App` component (App.jsx lines 162-168). -/
structure AppState where
  lat : Option ℚ
  lng : Option ℚ
  distanceKm : ℚ
  theme : String
  loading : Bool
  result : Option RecommendData
  error : Option String
  deriving DecidableEq

/-- Initial `useState` values (App.jsx lines 162-168). -/
def initialState : AppState :=
  { lat := none, lng := none, distanceKm := 5, theme := "카페",
    loading := false, result := none, error := none }

/-- JS truthiness of an optional string configuration value
(`import.meta.env` yields `undefined` when unset; the empty string is falsy). -/
def optTruthy : Option String → Bool
  | none => false
  | some s => !(s == "")

/- ## App submit gating (App.jsx lines 170, 177-178, 217) -/

/-- JS `s.trim()`, as the character list left after stripping leading and
trailing whitespace. -/
def jsTrim (s : String) : List Char :=
  ((s.toList.dropWhile Char.isWhitespace).reverse.dropWhile
    Char.isWhitespace).reverse

/-- `canSubmit` (App.jsx line 170):
`lat !== null && lng !== null && distanceKm > 0 && theme.trim().length > 0`. -/
def canSubmit (s : AppState) : Bool :=
  s.lat.isSome && s.lng.isSome && decide (0 < s.distanceKm)
    && decide (0 < (jsTrim s.theme).length)

/-- The submit button's `disabled` attribute (App.jsx line 217):
`!canSubmit || loading`. -/
def submitDisabled (s : AppState) : Bool :=
  !canSubmit s || s.loading

/-- Body of `submit` up to the fetch (App.jsx lines 178-181): the guard
`if (!canSubmit || !BACKEND_URL) return`, then `setLoading(true)`,
`setError(null)`, `setResult(null)`. -/
def submitGuardedStart (backend : Option String) (s : AppState) : AppState :=
  if canSubmit s && optTruthy backend then
    { s with loading := true, error := none, result := none }
  else s

/-- A user click on the submit button: a disabled button ignores the click
(App.jsx line 217), otherwise `onClick={submit}` runs the guard. -/
def clickSubmit (backend : Option String) (s : AppState) : AppState :=
  if submitDisabled s then s else submitGuardedStart backend s

/-- A button click is accepted (a request is actually issued) when the button
is enabled and the guard inside `submit` passes. -/
def clickAccepted (backend : Option String) (s : AppState) : Bool :=
  !submitDisabled s && (canSubmit s && optTruthy backend)

/- ## Error classification and request resolution (App.jsx lines 188-200) -/

/-- JS `String(e)` for `e = new Error(msg)`:
`Error.prototype.toString` yields `"Error"` when the message is empty and
`"Error: " + message` otherwise.  The thrown `Error` has no `.text` method, so
`await e.text ? await e.text() : String(e)` (line 192) always takes the
`String(e)` branch for a thrown `new Error(body)`. -/
def errString (msg : String) : String :=
  if msg == "" then "Error" else "Error: " ++ msg

/-- The localized guidance stored when the capability marker is found
(App.jsx line 194). -/
def kakaoGuidanceMsg : String :=
  "Kakao Local API가 활성화되지 않았습니다. 카카오 개발자 콘솔에서 \"OPEN_MAP_AND_LOCAL\" 서비스를 활성화해주세요."

/-- The catch-branch classification (App.jsx lines 193-197), applied to the
already-stringified error text. -/
def classifyError (errorText : String) : String :=
  if strIncludes errorText "OPEN_MAP_AND_LOCAL" then kakaoGuidanceMsg
  else errorText

/-- Resolution of the awaited fetch (App.jsx lines 188-200): success stores the
parsed data; a non-2xx throws `new Error(body)` which the catch stringifies and
classifies; a network error's description takes the same catch path.  The
`finally` clears `loading` on every path. -/
def resolve (s : AppState) : HttpOutcome → AppState
  | .success d => { s with result := some d, loading := false }
  | .httpError body =>
      { s with error := some (classifyError (errString body)), loading := false }
  | .networkError desc =>
      { s with error := some (classifyError desc), loading := false }

/- ## Kakao SDK loader (useKakaoLoader, App.jsx lines 7-84)

Single-threaded event-loop model: the effect body of each mount runs to
completion before the next, and the pending script's `onload` has not yet fired
while mounts are still arriving, so `window.kakao.maps.Map` stays absent
during the mount sequence. -/

/-- The document/global environment the loader effect reads and writes:
whether `window.kakao && window.kakao.maps && window.kakao.maps.Map` is
present, and the `src` attributes of the script tags in the document. -/
structure LoaderEnv where
  kakaoMapsReady : Bool
  scripts : List String
  deriving DecidableEq

/-- What one mount's effect body did. -/
inductive MountResult where
  | failedKey
  | readyNow
  | attachPoll
  | inserted
  deriving DecidableEq

/-- The script `src` built at App.jsx line 45. -/
def sdkSrc (key : String) : String :=
  "//dapi.kakao.com/v2/maps/sdk.js?appkey=" ++ key ++ "&autoload=false"

/-- `document.querySelector('script[src*="dapi.kakao.com"]')` (line 27):
is there a script tag whose src contains the SDK host? -/
def hasSdkScript (env : LoaderEnv) : Bool :=
  env.scripts.any fun src => strIncludes src "dapi.kakao.com"

/-- Number of SDK script tags in the document. -/
def sdkTagCount (env : LoaderEnv) : Nat :=
  env.scripts.countP fun src => strIncludes src "dapi.kakao.com"

/-- One mount's effect body (App.jsx lines 10-82), in source order:
missing/empty key short-circuits with an error (lines 13-17); an already
initialized library resolves immediately (lines 20-24); an existing SDK script
tag is awaited by polling (lines 27-41); otherwise a single new script tag is
appended (lines 44-75). -/
def mountLoader (key : Option String) (env : LoaderEnv) : MountResult × LoaderEnv :=
  match key with
  | none => (.failedKey, env)
  | some k =>
    if k == "" then (.failedKey, env)
    else if env.kakaoMapsReady then (.readyNow, env)
    else if hasSdkScript env then (.attachPoll, env)
    else (.inserted, { env with scripts := env.scripts ++ [sdkSrc k] })

/-- `n` consecutive mounts of the hook against the same environment. -/
def mountMany (key : Option String) : Nat → LoaderEnv → LoaderEnv
  | 0, env => env
  | n + 1, env => mountMany key n (mountLoader key env).2

/-- The hook's `{loaded, error}` pair immediately after the effect body ran
(before any asynchronous onload/poll callback fires). -/
def hookState : MountResult → Bool × Option String
  | .failedKey => (false, some "KAKAO_JS_KEY is not set")
  | .readyNow => (true, none)
  | .attachPoll => (false, none)
  | .inserted => (false, none)

/- ## MapPicker (App.jsx lines 86-159) -/

/-- A picked coordinate `(lat, lng)`. -/
abbrev Coord : Type := ℚ × ℚ

/-- MapPicker's own state: the marker position and its `coords` useState. -/
structure PickerState where
  markerPos : Coord
  coords : Option Coord
  deriving DecidableEq

/-- Initial picker state: marker at the map center (App.jsx lines 99-107). -/
def initPicker : PickerState :=
  { markerPos := ((37.5665 : ℚ), (126.978 : ℚ)), coords := none }

/-- What MapPicker renders (App.jsx lines 126-158): a failure placeholder when
the loader errored, a loading placeholder while not loaded, else the map. -/
inductive PickerView where
  | failure (msg : String)
  | loadingView
  | mapView
  deriving DecidableEq

/-- MapPicker's render dispatch (App.jsx lines 126-151). -/
def renderPicker (loaded : Bool) (error : Option String) : PickerView :=
  match error with
  | some e => .failure e
  | none => if loaded then .mapView else .loadingView

/-- The map-initialization effect (App.jsx lines 91-124) runs its
map-construction body only past the `if (!loaded || !ref.current) return`
guard. -/
def attemptsMapCreation (loaded refPresent : Bool) : Bool :=
  loaded && refPresent

/-- The click listener body (App.jsx lines 111-118) followed by `App.onPick`
(lines 172-175): move the marker, store `coords`, and set App's lat/lng. -/
def handleClick (_p : PickerState) (s : AppState) (c : Coord) :
    PickerState × AppState :=
  ({ markerPos := c, coords := some c },
   { s with lat := some c.1, lng := some c.2 })

/-- Run a sequence of clicks on a ready map, returning the final picker state,
the final App state, and the trace of (marker position after the click,
coordinate delivered to `onPick`) pairs in order. -/
def runClicks (p : PickerState) (s : AppState) :
    List Coord → PickerState × AppState × List (Coord × Coord)
  | [] => (p, s, [])
  | c :: rest =>
    let step := handleClick p s c
    let r := runClicks step.1 step.2 rest
    (r.1, r.2.1, (step.1.markerPos, c) :: r.2.2)

/- ## App result rendering (App.jsx lines 223-278) -/

/-- A single-quote character, as it appears in the zero-result message. -/
def sglQuote : String := (Char.ofNat 39).toString

/-- The zero-result message text (App.jsx lines 255-258). -/
def noMatchMsg (theme : String) : String :=
  "해당 지역에서 " ++ sglQuote ++ theme ++ sglQuote
    ++ " 테마의 장소를 찾을 수 없습니다. 다른 테마나 거리를 시도해보세요."

/-- The result panel (App.jsx lines 225-278): either the place details with
the doubled round-trip distance and the route link, or the zero-result message
with the route link. -/
inductive ResultPanel where
  | withPlace (name : String) (oneWayKm roundTripKm targetKm : ℚ)
      (address phone : Option String) (candidates : ℤ) (routeUrl : String)
  | noPlace (msg : String) (routeUrl : String)
  deriving DecidableEq

/-- The inline error line (App.jsx line 223): rendered exactly when `error` is
set. -/
def renderError (s : AppState) : Option String := s.error

/-- The result block (App.jsx lines 225-278): rendered only when `result` is
set; branches on `result.selected_place` (line 229); the round-trip figure is
`result.selected_place.distance_km * 2` (line 238); the route link targets
`result.route_url` (line 262). -/
def renderResultPanel (s : AppState) : Option ResultPanel :=
  s.result.map fun d =>
    match d.selected_place with
    | some p =>
        .withPlace p.place_name p.distance_km (p.distance_km * 2) s.distanceKm
          p.address_name p.phone d.candidates_considered d.route_url
    | none => .noPlace (noMatchMsg s.theme) d.route_url

/-- The route link's href, present whenever the result block renders. -/
def routeLink (s : AppState) : Option String :=
  s.result.map fun d => d.route_url

/- ## Concrete states used to instantiate the theorems -/

/-- A state with a picked coordinate, positive distance, and non-blank theme
(the spec's Scenario A selection). -/
def readyState : AppState :=
  { lat := some (37.5665 : ℚ), lng := some (126.978 : ℚ), distanceKm := 5,
    theme := "카페", loading := false, result := none, error := none }

/-- The Scenario A place returned by the backend. -/
def cafePlace : Place :=
  { place_name := "Cafe X", distance_km := (2.3 : ℚ),
    address_name := none, phone := none }

/-- Scenario A success body with the route URL left abstract. -/
def cafeData (u : String) : RecommendData :=
  { selected_place := some cafePlace,
    candidates_considered := 4, route_url := u }

/-- The App state after submitting from `readyState` (backend configured) and
receiving the Scenario A response. -/
def scenarioResolved (u : String) : AppState :=
  resolve (clickSubmit (some "http://localhost:8000") readyState)
    (.success (cafeData u))

/- ## Supporting lemmas -/

/-- No occurrence of the capability marker can start inside the fixed
`"Error: "` prefix (its first marker character `O` does not occur there in
matching case), so prepending the prefix changes nothing about containment. -/
theorem strIncludes_errPrefix (body : String) :
    strIncludes ("Error: " ++ body) "OPEN_MAP_AND_LOCAL"
      = strIncludes body "OPEN_MAP_AND_LOCAL" := by
  cases body
  rfl

theorem errString_of_contains (body : String)
    (h : strIncludes body "OPEN_MAP_AND_LOCAL" = true) :
    errString body = "Error: " ++ body := by
  have hb : (body == "") = false := by
    cases hbe : body == "" with
    | false => rfl
    | true =>
      exfalso
      have hb2 : body = "" := eq_of_beq hbe
      subst hb2
      exact absurd h (by decide)
  simp [errString, hb]

/-- Claim C2: for every submit whose HTTP response has a non-success status and
whose body text contains the substring OPEN_MAP_AND_LOCAL, the stored and
displayed error is the localized capability-disabled guidance message, not the
raw body text. -/
theorem capability_marker_shows_guidance (s : AppState) (body : String)
    (h : strIncludes body "OPEN_MAP_AND_LOCAL" = true) :
    (resolve s (.httpError body)).error = some kakaoGuidanceMsg ∧
    renderError (resolve s (.httpError body)) = some kakaoGuidanceMsg := by
  have he : errString body = "Error: " ++ body := errString_of_contains body h
  have hc : strIncludes ("Error: " ++ body) "OPEN_MAP_AND_LOCAL" = true := by
    rw [strIncludes_errPrefix]
    exact h
  constructor
  · simp [resolve, classifyError, he, hc]
  · simp [renderError, resolve, classifyError, he, hc]

theorem capability_marker_shows_guidance_witness :
    strIncludes "400 Bad Request: OPEN_MAP_AND_LOCAL disabled"
        "OPEN_MAP_AND_LOCAL" = true ∧
    (resolve initialState
        (.httpError "400 Bad Request: OPEN_MAP_AND_LOCAL disabled")).error
      = some kakaoGuidanceMsg :=
  ⟨by decide,
   (capability_marker_shows_guidance initialState
     "400 Bad Request: OPEN_MAP_AND_LOCAL disabled" (by decide)).1⟩

/-- Claim C3 (counterexample): with a non-success response whose body is
`"boom"`, the stored error is `"Error: boom"` — the JS stringification of the
thrown `new Error(body)` — not the verbatim body text `"boom"`. -/
theorem upstream_error_not_verbatim :
    (resolve initialState (HttpOutcome.httpError "boom")).error
        = some "Error: boom" ∧
    (resolve initialState (HttpOutcome.httpError "boom")).error
        ≠ some "boom" := by
  constructor
  · rfl
  · decide

/-- Claim C3 (amended): for every submit whose HTTP response has a non-success
status and whose body text does not contain the OPEN_MAP_AND_LOCAL substring,
the stored error message is the JS string rendering of the thrown
`new Error(body)` — `"Error: "` prefixed to the raw body text (just `"Error"`
for an empty body) — rather than the body text verbatim. -/
theorem upstream_error_prefixed (s : AppState) (body : String)
    (h : strIncludes body "OPEN_MAP_AND_LOCAL" = false) :
    (resolve s (.httpError body)).error = some (errString body) := by
  by_cases hb : (body == "") = true
  · have hb2 : body = "" := eq_of_beq hb
    subst hb2
    have he : strIncludes "Error" "OPEN_MAP_AND_LOCAL" = false := by decide
    simp [resolve, classifyError, errString, he]
  · have hb' : (body == "") = false := by
      cases hbe : body == "" with
      | false => rfl
      | true => exact absurd hbe hb
    have he : errString body = "Error: " ++ body := by simp [errString, hb']
    have hc : strIncludes ("Error: " ++ body) "OPEN_MAP_AND_LOCAL" = false := by
      rw [strIncludes_errPrefix]
      exact h
    simp [resolve, classifyError, he, hc]

theorem upstream_error_prefixed_witness :
    strIncludes "boom" "OPEN_MAP_AND_LOCAL" = false ∧
    (resolve initialState (.httpError "boom")).error
      = some (errString "boom") :=
  ⟨by decide, upstream_error_prefixed initialState "boom" (by decide)⟩

/-- Boolean shape of the composed submit gate. -/
theorem gate_bool (a b c d l t : Bool) :
    (!(!(a && b && c && d) || l) && ((a && b && c && d) && t))
      = (a && b && c && d && !l && t) := by
  cases a <;> cases b <;> cases c <;> cases d <;> cases l <;> cases t <;> rfl

/-- Boolean shape of the `disabled` attribute. -/
theorem disabled_bool (a b c d l : Bool) :
    (!(a && b && c && d) || l) = !(a && b && c && d && !l) := by
  cases a <;> cases b <;> cases c <;> cases d <;> cases l <;> rfl

/-- Claim C1 (counterexample): in a state with a picked coordinate, positive
distance and non-blank theme but with the backend endpoint configuration
absent, the submit button is NOT disabled, yet a click on it is not accepted
and leaves the state unchanged — a silently ignored click, refuting
"the submit button is disabled exactly when one of these conditions fails". -/
theorem submit_gate_counterexample :
    submitDisabled readyState = false ∧
    clickAccepted none readyState = false ∧
    clickSubmit none readyState = readyState := by
  refine ⟨by decide, by decide, ?_⟩
  have hd : submitDisabled readyState = false := by decide
  simp [clickSubmit, hd, submitGuardedStart, optTruthy]

/-- Claim C1 (amended): a submit click is accepted exactly when the coordinate
is picked, the distance is positive, the theme is non-blank after trimming, no
request is in flight, and the backend endpoint configuration is truthy; but the
button is disabled exactly when one of the first four conditions fails — the
backend-configuration condition is not reflected in `disabled`, so its failure
is a silently ignored click on an enabled button. -/
theorem submit_gate_amended (backend : Option String) (s : AppState) :
    clickAccepted backend s
      = (s.lat.isSome && s.lng.isSome && decide (0 < s.distanceKm)
          && decide (0 < (jsTrim s.theme).length) && !s.loading
          && optTruthy backend) ∧
    submitDisabled s
      = !(s.lat.isSome && s.lng.isSome && decide (0 < s.distanceKm)
          && decide (0 < (jsTrim s.theme).length) && !s.loading) := by
  constructor
  · exact gate_bool s.lat.isSome s.lng.isSome (decide (0 < s.distanceKm))
      (decide (0 < (jsTrim s.theme).length)) s.loading (optTruthy backend)
  · exact disabled_bool s.lat.isSome s.lng.isSome (decide (0 < s.distanceKm))
      (decide (0 < (jsTrim s.theme).length)) s.loading

/-- An accepted click reduces to the cleared loading state. -/
theorem clickSubmit_of_accepted (backend : Option String) (s : AppState)
    (hacc : clickAccepted backend s = true) :
    clickSubmit backend s
      = { s with loading := true, error := none, result := none } := by
  have h := hacc
  unfold clickAccepted at h
  rw [Bool.and_eq_true] at h
  have hd : submitDisabled s = false := by
    cases hds : submitDisabled s with
    | false => rfl
    | true => rw [hds] at h; exact absurd h.1 (by decide)
  unfold clickSubmit submitGuardedStart
  rw [hd]
  simp [h.2]

/-- Claim C7: every accepted submit, before its request resolves, clears the
previously stored error and result and enters the loading state. -/
theorem accepted_submit_clears_prior (backend : Option String) (s : AppState)
    (hacc : clickAccepted backend s = true) :
    (clickSubmit backend s).loading = true ∧
    (clickSubmit backend s).error = none ∧
    (clickSubmit backend s).result = none := by
  rw [clickSubmit_of_accepted backend s hacc]
  exact ⟨rfl, rfl, rfl⟩

theorem accepted_submit_clears_prior_witness :
    clickAccepted (some "http://localhost:8000") readyState = true ∧
    ((clickSubmit (some "http://localhost:8000") readyState).loading = true ∧
     (clickSubmit (some "http://localhost:8000") readyState).error = none ∧
     (clickSubmit (some "http://localhost:8000") readyState).result = none) :=
  ⟨by decide,
   accepted_submit_clears_prior (some "http://localhost:8000") readyState
     (by decide)⟩

/-- Claim C10: after an accepted submit resolves — whatever the outcome — at
most one of the stored error and stored result is non-null, so the UI never
renders an error line and a result panel simultaneously. -/
theorem error_result_exclusive (backend : Option String) (s : AppState)
    (o : HttpOutcome) (hacc : clickAccepted backend s = true) :
    (resolve (clickSubmit backend s) o).error = none ∨
    (resolve (clickSubmit backend s) o).result = none := by
  rw [clickSubmit_of_accepted backend s hacc]
  cases o with
  | success d => exact Or.inl rfl
  | httpError body => exact Or.inr rfl
  | networkError desc => exact Or.inr rfl

theorem error_result_exclusive_witness :
    clickAccepted (some "http://localhost:8000") readyState = true ∧
    ((resolve (clickSubmit (some "http://localhost:8000") readyState)
        (.httpError "boom")).error = none ∨
     (resolve (clickSubmit (some "http://localhost:8000") readyState)
        (.httpError "boom")).result = none) :=
  ⟨by decide,
   error_result_exclusive (some "http://localhost:8000") readyState
     (.httpError "boom") (by decide)⟩

/-- Claim C6: a 2xx response whose `selected_place` is null enters the success
state — no error stored or rendered — and renders the distinct zero-result
message panel, which differs by constructor from every success-with-place
panel (and the failure rendering, the error line, is absent). -/
theorem zero_result_success (backend : Option String) (s : AppState)
    (d : RecommendData) (hacc : clickAccepted backend s = true)
    (hnone : d.selected_place = none) :
    (resolve (clickSubmit backend s) (.success d)).error = none ∧
    renderError (resolve (clickSubmit backend s) (.success d)) = none ∧
    renderResultPanel (resolve (clickSubmit backend s) (.success d))
      = some (ResultPanel.noPlace (noMatchMsg s.theme) d.route_url) ∧
    (∀ (nm : String) (q1 q2 q3 : ℚ) (ad ph : Option String) (cc : ℤ)
        (u : String),
      ResultPanel.noPlace (noMatchMsg s.theme) d.route_url
        ≠ ResultPanel.withPlace nm q1 q2 q3 ad ph cc u) := by
  rw [clickSubmit_of_accepted backend s hacc]
  refine ⟨rfl, rfl, ?_, ?_⟩
  · simp [renderResultPanel, resolve, hnone]
  · intro nm q1 q2 q3 ad ph cc u h
    exact ResultPanel.noConfusion h

theorem zero_result_success_witness :
    clickAccepted (some "http://localhost:8000") readyState = true ∧
    (RecommendData.mk none 0 "https://map.kakao.com/route").selected_place
      = none ∧
    renderResultPanel (resolve
        (clickSubmit (some "http://localhost:8000") readyState)
        (.success (RecommendData.mk none 0 "https://map.kakao.com/route")))
      = some (ResultPanel.noPlace (noMatchMsg readyState.theme)
          "https://map.kakao.com/route") :=
  ⟨by decide, rfl,
   (zero_result_success (some "http://localhost:8000") readyState
     (RecommendData.mk none 0 "https://map.kakao.com/route")
     (by decide) rfl).2.2.1⟩

/-- Claim C9: with the Scenario A response — place "Cafe X" at one-way 2.3 km,
4 candidates considered, and a route URL — the rendered panel shows the place
name "Cafe X", the round-trip distance 4.6 km (twice the one-way distance),
the candidate count, and the route link targeting the response's URL; no error
is rendered. -/
theorem scenario_a_rendering (u : String) :
    renderResultPanel (scenarioResolved u)
      = some (ResultPanel.withPlace "Cafe X" (2.3 : ℚ) (4.6 : ℚ) (5 : ℚ)
          none none 4 u) ∧
    routeLink (scenarioResolved u) = some u ∧
    renderError (scenarioResolved u) = none := by
  have h2 : (2.3 : ℚ) * 2 = (4.6 : ℚ) := by norm_num
  refine ⟨?_, rfl, rfl⟩
  calc renderResultPanel (scenarioResolved u)
      = some (ResultPanel.withPlace "Cafe X" (2.3 : ℚ) ((2.3 : ℚ) * 2) (5 : ℚ)
          none none 4 u) := rfl
    _ = some (ResultPanel.withPlace "Cafe X" (2.3 : ℚ) (4.6 : ℚ) (5 : ℚ)
          none none 4 u) := by rw [h2]

/- ## Claim C8 helpers -/

theorem runClicks_trace (p : PickerState) (s : AppState) (clicks : List Coord) :
    (runClicks p s clicks).2.2 = clicks.map (fun c => (c, c)) := by
  induction clicks generalizing p s with
  | nil => rfl
  | cons c rest ih =>
    simp only [runClicks, handleClick, List.map_cons]
    exact congrArg _ (ih _ _)

theorem runClicks_last (p : PickerState) (s : AppState) (pre : List Coord)
    (c : Coord) :
    (runClicks p s (pre ++ [c])).1.markerPos = c ∧
    (runClicks p s (pre ++ [c])).2.1.lat = some c.1 ∧
    (runClicks p s (pre ++ [c])).2.1.lng = some c.2 := by
  induction pre generalizing p s with
  | nil => exact ⟨rfl, rfl, rfl⟩
  | cons x rest ih =>
    simp only [List.cons_append, runClicks]
    exact ih _ _

/-- Claim C8: over any click sequence on a ready map, each click moves the
marker to its coordinate and fires exactly one pick callback carrying that
same coordinate (the emitted trace is exactly the click list, paired with the
identical marker positions), and after a sequence ending in click `c` the
controller's selection state holds exactly `c`. -/
theorem click_sequence_contract (p : PickerState) (s : AppState)
    (clicks pre : List Coord) (c : Coord) :
    (runClicks p s clicks).2.2 = clicks.map (fun x => (x, x)) ∧
    ((runClicks p s clicks).2.2).length = clicks.length ∧
    (runClicks p s (pre ++ [c])).1.markerPos = c ∧
    (runClicks p s (pre ++ [c])).2.1.lat = some c.1 ∧
    (runClicks p s (pre ++ [c])).2.1.lng = some c.2 := by
  refine ⟨runClicks_trace p s clicks, ?_, runClicks_last p s pre c⟩
  rw [runClicks_trace p s clicks]
  exact clicks.length_map _

/- ## Claim C4/C5 helpers -/

/-- The inserted script src matches the querySelector scan. -/
theorem sdkSrc_hasMarker (k : String) :
    strIncludes (sdkSrc k) "dapi.kakao.com" = true := by
  cases k with
  | mk l =>
    unfold strIncludes
    rw [show (sdkSrc ⟨l⟩).toList
        = "//dapi.kakao.com/v2/maps/sdk.js?appkey=".toList
          ++ (l ++ "&autoload=false".toList) from rfl]
    exact listContains_append_right _ _ _ (by decide)

theorem no_sdk_of_count_zero (env : LoaderEnv) (h : sdkTagCount env = 0) :
    hasSdkScript env = false := by
  unfold sdkTagCount at h
  rw [List.countP_eq_zero] at h
  unfold hasSdkScript
  rw [List.any_eq_false]
  intro x hx
  simpa using h x hx

/-- A mount that sees a pending SDK script attaches without touching the
document. -/
theorem mount_attach (k : String) (hk : (k == "") = false) (env : LoaderEnv)
    (hr : env.kakaoMapsReady = false) (hs : hasSdkScript env = true) :
    mountLoader (some k) env = (.attachPoll, env) := by
  simp [mountLoader, hk, hr, hs]

theorem mountMany_noop (k : String) (hk : (k == "") = false) (m : Nat)
    (env : LoaderEnv) (hr : env.kakaoMapsReady = false)
    (hs : hasSdkScript env = true) :
    mountMany (some k) m env = env := by
  induction m with
  | zero => rfl
  | succ n ih =>
    show mountMany (some k) n (mountLoader (some k) env).2 = env
    rw [mount_attach k hk env hr hs]
    exact ih

/-- Claim C4: with a truthy key, a mount that finds the library fully
initialized resolves Ready immediately with the document untouched; a mount
that finds an existing SDK script tag attaches to the pending load (polling)
without touching the document; and any positive number of consecutive mounts
starting from a document with no SDK tag and an uninitialized library inserts
exactly one script tag in total. -/
theorem loader_single_insertion (k : String) (hk : (k == "") = false) :
    (∀ env : LoaderEnv, env.kakaoMapsReady = true →
      mountLoader (some k) env = (.readyNow, env)) ∧
    (∀ env : LoaderEnv, env.kakaoMapsReady = false → hasSdkScript env = true →
      mountLoader (some k) env = (.attachPoll, env)) ∧
    (∀ (env : LoaderEnv) (n : Nat), env.kakaoMapsReady = false →
      sdkTagCount env = 0 → 1 ≤ n →
      sdkTagCount (mountMany (some k) n env) = 1) := by
  refine ⟨?_, mount_attach k hk, ?_⟩
  · intro env hr
    simp [mountLoader, hk, hr]
  · intro env n hr hc hn
    obtain ⟨m, rfl⟩ : ∃ m, n = m + 1 := ⟨n - 1, by omega⟩
    show sdkTagCount (mountMany (some k) m (mountLoader (some k) env).2) = 1
    have hstep : (mountLoader (some k) env).2
        = { env with scripts := env.scripts ++ [sdkSrc k] } := by
      simp [mountLoader, hk, hr, no_sdk_of_count_zero env hc]
    rw [hstep]
    have hs1 : hasSdkScript { env with scripts := env.scripts ++ [sdkSrc k] }
        = true := by
      unfold hasSdkScript
      simp [sdkSrc_hasMarker k]
    have hr1 : LoaderEnv.kakaoMapsReady
        { env with scripts := env.scripts ++ [sdkSrc k] } = false := hr
    rw [mountMany_noop k hk m _ hr1 hs1]
    unfold sdkTagCount at hc ⊢
    simp [List.countP_append, hc, List.countP_cons, sdkSrc_hasMarker k]

theorem loader_single_insertion_witness :
    ("kakaokey" == "") = false ∧
    LoaderEnv.kakaoMapsReady { kakaoMapsReady := false, scripts := [] }
      = false ∧
    sdkTagCount { kakaoMapsReady := false, scripts := [] } = 0 ∧ 1 ≤ 3 ∧
    sdkTagCount (mountMany (some "kakaokey") 3
      { kakaoMapsReady := false, scripts := [] }) = 1 :=
  ⟨by decide, rfl, rfl, by decide,
   (loader_single_insertion "kakaokey" (by decide)).2.2
     { kakaoMapsReady := false, scripts := [] } 3 rfl rfl (by decide)⟩

/-- Claim C5: with the map API key configuration absent (or empty, which is
falsy in JS), a mount fails immediately with the key-missing reason, inserts
no script tag, and the resulting hook state renders the failure placeholder —
the map-initialization effect body never runs, so no map surface is created. -/
theorem missing_key_short_circuit (key : Option String) (env : LoaderEnv)
    (h : optTruthy key = false) :
    mountLoader key env = (.failedKey, env) ∧
    (mountLoader key env).2.scripts = env.scripts ∧
    hookState (mountLoader key env).1
      = (false, some "KAKAO_JS_KEY is not set") ∧
    renderPicker (hookState (mountLoader key env).1).1
        (hookState (mountLoader key env).1).2
      = .failure "KAKAO_JS_KEY is not set" ∧
    (∀ refPresent : Bool,
      attemptsMapCreation (hookState (mountLoader key env).1).1 refPresent
        = false) := by
  have hm : mountLoader key env = (.failedKey, env) := by
    cases key with
    | none => rfl
    | some k =>
      have hk : (k == "") = true := by
        cases hke : k == "" with
        | true => rfl
        | false => rw [optTruthy, hke] at h; exact absurd h (by decide)
      simp [mountLoader, hk]
  rw [hm]
  exact ⟨rfl, rfl, rfl, rfl, fun _ => rfl⟩

theorem missing_key_short_circuit_witness :
    optTruthy none = false ∧
    mountLoader none { kakaoMapsReady := false, scripts := [] }
      = (.failedKey, { kakaoMapsReady := false, scripts := [] }) :=
  ⟨rfl,
   (missing_key_short_circuit none
     { kakaoMapsReady := false, scripts := [] } rfl).1⟩
